import Mathlib

/-
Verification of the Theia `WorkspaceDeleteHandler` (workspace delete command
handler). The handler is embedded shallowly: path-based resource identifiers,
an environment holding the workspace roots, the open widgets, the user's
dialog response and the set of failing storage deletes, and an `execute`
function that produces the ordered trace of observable effects (dialog
opened, widgets closed, storage deletes issued, errors logged) inside
`Except`, so that an uncaught exception would surface as `.error`.

Collaborators that live outside the provided sources (`URI.getDistinctParents`,
`WorkspaceUtils.containsRootDirectory`, `NavigatableWidget.getAffected`,
`SaveableWidget.getDirty`) are modelled from the spec, as marked on each.
-/

namespace DeleteWorkflow

/-- A resource identifier: the segments of a path-like URI
(`ResourceId` of the spec, `URI` in the source). -/
structure URI where
  segments : List String
deriving DecidableEq, Repr

/-- Base name of a resource: its last path segment (`uri.path.base` in the source). -/
def URI.base (u : URI) : String := u.segments.getLastD ""

/-- Test that the first segment list is a (not necessarily strict)
prefix of the second: the path relation underlying ancestry. -/
def segsBelow : List String → List String → Bool
  | [], _ => true
  | _ :: _, [] => false
  | a :: as, b :: bs => a == b && segsBelow as bs

/-- Holds when `u` equals `v` or is an ancestor of `v`
(`isEqualOrParent` in the host framework). -/
def isEqualOrAncestor (u v : URI) : Bool := segsBelow u.segments v.segments

/-- Holds when `u` is a strict ancestor of `v`: a proper path prefix. -/
def isStrictAncestor (u v : URI) : Bool :=
  segsBelow u.segments v.segments && decide (u.segments.length < v.segments.length)

/-- Modelled from the spec: `URI.getDistinctParents` (the spec's
`reduceToDistinctRoots`) is defined in the host framework, outside the
provided sources. Per the spec it drops any identifier that is a descendant
of another identifier in the same selection, keeping the rest. -/
def URI.getDistinctParents (uris : List URI) : List URI :=
  uris.filter (fun u => !(uris.any (fun v => isStrictAncestor v u)))

/-- An open view of the workbench shell. `resource` is the associated
navigatable resource (`none` for non-navigatable widgets); `saveable`
states whether the widget supports save/discard-close (`SaveableWidget.is`
in the source); `dirty` states unsaved changes. -/
structure Widget where
  id : Nat
  resource : Option URI
  saveable : Bool
  dirty : Bool
deriving DecidableEq, Repr

/-- The environment the handler runs against: the workspace roots, the open
widgets of the shell, the response the user will give to the confirmation
dialog (`none` models dismissal), and which storage deletes fail, as an
association of resource to error message. -/
structure Env where
  roots : List URI
  widgets : List Widget
  dialogResponse : Option Bool
  storageFails : List (URI × String)
deriving Repr

/-- The confirmation message: either plain text or a header followed by a
structured list of base names (the `HTMLElement` branch of the source). -/
inductive ConfirmMessage where
  | text : String → ConfirmMessage
  | fileList : String → List String → ConfirmMessage
deriving DecidableEq, Repr

/-- Observable effects of the handler, in order of occurrence. -/
inductive Event where
  | dialog : String → ConfirmMessage → Event
  | closeDiscard : Nat → Event
  | closePlain : Nat → Event
  | storageDelete : URI → Event
  | logError : URI → String → Event
deriving DecidableEq, Repr

/-- Modelled from the spec: `NavigatableWidget.getAffected` is defined in the
host framework, outside the provided sources. Per the spec it yields the
widgets bound to a selected resource or to a descendant of one, paired with
the widget's own resource. -/
def getAffected (widgets : List Widget) (uris : List URI) : List (URI × Widget) :=
  widgets.filterMap (fun w =>
    match w.resource with
    | some r => if uris.any (fun u => isEqualOrAncestor u r) then some (r, w) else none
    | none => none)

/-- First-occurrence deduplication of resource URIs, as the JS `Map` keyed by
`uri.toString()` performs in `getDirty`. -/
def dedupFirst (l : List URI) : List URI :=
  l.foldl (fun acc u => if acc.contains u then acc else acc ++ [u]) []

/-- Embedding of `WorkspaceDeleteHandler.getDirty`: resources of dirty
saveable widgets affected by the selection, deduplicated
(`SaveableWidget.getDirty` of the host framework is modelled from the spec
as the dirty saveable widgets). -/
def getDirty (env : Env) (uris : List URI) : List URI :=
  dedupFirst ((getAffected (env.widgets.filter (fun w => w.saveable && w.dirty)) uris).map Prod.fst)

/-- The close effect a widget receives in `closeWithoutSaving`: saveable
widgets are closed discarding their changes (`closeWithoutSaving()` of the
widget), others are closed plainly (`close()`); neither invokes save logic. -/
def closeEvent (w : Widget) : Event :=
  if w.saveable then Event.closeDiscard w.id else Event.closePlain w.id

/-- Embedding of `WorkspaceDeleteHandler.closeWithoutSaving`: close every
affected widget of the shell, discarding changes when the widget is saveable. -/
def closeWithoutSaving (env : Env) (u : URI) : List Event :=
  (getAffected env.widgets [u]).map (fun p => closeEvent p.2)

/-- Whether the storage delete of `u` fails, and with which error. -/
def lookupFail (fails : List (URI × String)) (u : URI) : Option String :=
  (fails.find? (fun p => p.1 == u)).map Prod.snd

/-- The try-block of `WorkspaceDeleteHandler.delete`: close the affected
widgets, then issue the storage delete; the second component is the
exception the storage delete raises, if any. -/
def deleteAttempt (env : Env) (u : URI) : List Event × Option String :=
  (closeWithoutSaving env u ++ [Event.storageDelete u], lookupFail env.storageFails u)

/-- Embedding of `WorkspaceDeleteHandler.delete`: the try-block wrapped in
the catch-and-log handler, so a storage failure is logged and never
propagated. -/
def deleteRes (env : Env) (u : URI) : Except String (List Event) :=
  match deleteAttempt env u with
  | (evs, none) => Except.ok evs
  | (evs, some err) => Except.ok (evs ++ [Event.logError u err])

/-- The events `deleteRes` produces, as a pure list. -/
def deleteEvents (env : Env) (u : URI) : List Event :=
  closeWithoutSaving env u ++ Event.storageDelete u ::
    (match lookupFail env.storageFails u with
     | none => []
     | some err => [Event.logError u err])

/-- Embedding of `Promise.all` over the per-resource deletions: rejects if
any rejects, otherwise concatenates the effect traces. -/
def collectAll : List (Except String (List Event)) → Except String (List Event)
  | [] => Except.ok []
  | Except.error e :: _ => Except.error e
  | Except.ok evs :: rest =>
    match collectAll rest with
    | Except.error e => Except.error e
    | Except.ok evs2 => Except.ok (evs ++ evs2)

/-- Title of the confirmation dialog. -/
def confirmTitle (uris : List URI) : String :=
  if uris.length == 1 then "Delete File" else "Delete Files"

/-- Embedding of `WorkspaceDeleteHandler.getConfirmMessage`: dirty resources
take priority; otherwise a single resource is named, more than ten resources
are counted, and any other selection is listed name by name. -/
def getConfirmMessage (env : Env) (uris : List URI) : ConfirmMessage :=
  match getDirty env uris with
  | [d] => ConfirmMessage.text ("Do you really want to delete " ++ d.base ++ " with unsaved changes?")
  | [] =>
    match uris with
    | [u] => ConfirmMessage.text ("Do you really want to delete " ++ u.base ++ "?")
    | _ =>
      if uris.length > 10 then
        ConfirmMessage.text ("Do you really want to delete all the " ++ toString uris.length ++ " selected files?")
      else
        ConfirmMessage.fileList "Do you really want to delete the following files?" (uris.map URI.base)
  | ds => ConfirmMessage.text ("Do you really want to delete " ++ toString ds.length ++ " files with unsaved changes?")

/-- Embedding of `WorkspaceDeleteHandler.execute`: reduce the selection, open
the confirmation dialog, and when (and only when) the user answers `true`,
delete every reduced resource via `Promise.all`. -/
def executeE (env : Env) (uris : List URI) : Except String (List Event) :=
  let distinct := URI.getDistinctParents uris
  let dEv := Event.dialog (confirmTitle distinct) (getConfirmMessage env distinct)
  if env.dialogResponse == some true then
    match collectAll (distinct.map (deleteRes env)) with
    | Except.ok evs => Except.ok (dEv :: evs)
    | Except.error e => Except.error e
  else
    Except.ok [dEv]

/-- Modelled from the spec: `WorkspaceUtils.containsRootDirectory` is defined
outside the provided sources. Per the spec it holds when some selected
resource is a workspace root. -/
def containsRootDirectory (env : Env) (uris : List URI) : Bool :=
  uris.any (fun u => env.roots.contains u)

/-- Embedding of `WorkspaceDeleteHandler.isVisible`: non-empty selection
containing no root. -/
def isVisible (env : Env) (uris : List URI) : Bool :=
  !uris.isEmpty && !containsRootDirectory env uris

/-- Embedding of `WorkspaceDeleteHandler.isEnabled`: non-empty selection
containing no root. -/
def isEnabled (env : Env) (uris : List URI) : Bool :=
  !uris.isEmpty && !containsRootDirectory env uris

/-- Sample resource used by the witnesses below. -/
def sampleA : URI := ⟨["home", "a.txt"]⟩

/-- Sample resource used by the witnesses below. -/
def sampleB : URI := ⟨["home", "b.txt"]⟩

/-- Sample directory resource used by the witnesses below. -/
def sampleDir : URI := ⟨["home", "dir"]⟩

/-- Sample resource inside `sampleDir`, used by the witnesses below. -/
def sampleChild : URI := ⟨["home", "dir", "c.txt"]⟩

/-- A saveable widget with unsaved changes over `sampleChild`. -/
def sampleWidget : Widget := ⟨7, some sampleChild, true, true⟩

/-- Environment in which the user declines the confirmation dialog. -/
def declineEnv : Env := ⟨[], [], some false, []⟩

/-- Environment in which the user confirms and the storage delete of
`sampleB` fails. -/
def confirmEnv : Env := ⟨[], [], some true, [(sampleB, "EACCES: permission denied")]⟩

/-- Environment holding one dirty saveable widget over `sampleChild`. -/
def dirtyEnv : Env := ⟨[], [sampleWidget], some true, []⟩

/-- Unfolding lemma: the per-resource delete always resolves, with the trace
given by `deleteEvents` (the catch converts a storage failure into a log). -/
theorem deleteRes_ok (env : Env) (u : URI) :
    deleteRes env u = Except.ok (deleteEvents env u) := by
  unfold deleteRes deleteAttempt deleteEvents
  cases h : lookupFail env.storageFails u <;> simp

/-- The aggregation over per-resource deletes resolves to the concatenation
of the individual traces. -/
theorem collectAll_map_ok (env : Env) (us : List URI) :
    collectAll (us.map (deleteRes env)) = Except.ok ((us.map (deleteEvents env)).flatten) := by
  induction us with
  | nil => rfl
  | cons u us ih =>
    simp only [List.map_cons, deleteRes_ok, collectAll, ih, List.flatten_cons]

/-- Shape of the trace of a confirmed execution. -/
theorem executeE_confirmed (env : Env) (uris : List URI)
    (h : env.dialogResponse = some true) :
    executeE env uris =
      Except.ok (Event.dialog (confirmTitle (URI.getDistinctParents uris))
          (getConfirmMessage env (URI.getDistinctParents uris)) ::
        ((URI.getDistinctParents uris).map (deleteEvents env)).flatten) := by
  unfold executeE
  simp [h, collectAll_map_ok]

/-- Shape of the trace of a declined or dismissed execution. -/
theorem executeE_declined (env : Env) (uris : List URI)
    (h : env.dialogResponse ≠ some true) :
    executeE env uris =
      Except.ok [Event.dialog (confirmTitle (URI.getDistinctParents uris))
          (getConfirmMessage env (URI.getDistinctParents uris))] := by
  unfold executeE
  simp [h]

/-- A widget list is never affected by the empty selection. -/
theorem getAffected_nil (ws : List Widget) : getAffected ws [] = [] := by
  unfold getAffected
  apply List.filterMap_eq_nil_iff.mpr
  intro w _
  cases w.resource <;> simp

/-- C1: if the user does not confirm the dialog (response `false` or
dismissal), `execute` resolves without error and its trace contains no
storage delete and no logged error: no deletion is performed. -/
theorem execute_declined_no_deletion (env : Env) (uris : List URI)
    (h : env.dialogResponse ≠ some true) :
    ∃ evs, executeE env uris = Except.ok evs ∧
      (∀ u, Event.storageDelete u ∉ evs) ∧ ∀ u e, Event.logError u e ∉ evs := by
  refine ⟨_, executeE_declined env uris h, ?_, ?_⟩ <;> simp

/-- Witness for C1 at a concrete declining environment. -/
theorem execute_declined_no_deletion_witness :
    declineEnv.dialogResponse ≠ some true ∧
    ∃ evs, executeE declineEnv [sampleA] = Except.ok evs ∧
      (∀ u, Event.storageDelete u ∉ evs) ∧ ∀ u e, Event.logError u e ∉ evs :=
  ⟨by decide, execute_declined_no_deletion declineEnv [sampleA] (by decide)⟩

/-- C2: on a confirmed execution no exception propagates (`execute` and each
per-resource delete resolve), and every resource of the reduced selection
gets its storage delete attempted; a failing resource has its error logged
in the trace — independently of failures of any other resource. -/
theorem execute_confirmed_deletes_independent (env : Env) (uris : List URI)
    (h : env.dialogResponse = some true) :
    ∃ evs, executeE env uris = Except.ok evs ∧
      ∀ u ∈ URI.getDistinctParents uris,
        Event.storageDelete u ∈ evs ∧
        (∃ res, deleteRes env u = Except.ok res) ∧
        ∀ err, lookupFail env.storageFails u = some err → Event.logError u err ∈ evs := by
  refine ⟨_, executeE_confirmed env uris h, ?_⟩
  intro u hu
  have hsub : deleteEvents env u ∈ (URI.getDistinctParents uris).map (deleteEvents env) :=
    List.mem_map_of_mem _ hu
  refine ⟨?_, ⟨_, deleteRes_ok env u⟩, ?_⟩
  · apply List.mem_cons_of_mem
    exact List.mem_flatten.mpr ⟨_, hsub, by simp [deleteEvents]⟩
  · intro err herr
    apply List.mem_cons_of_mem
    refine List.mem_flatten.mpr ⟨_, hsub, ?_⟩
    simp [deleteEvents, herr]

/-- Witness for C2: both resources of a confirmed two-element selection are
attempted even though the delete of `sampleB` fails and is logged. -/
theorem execute_confirmed_deletes_independent_witness :
    confirmEnv.dialogResponse = some true ∧
    ∃ evs, executeE confirmEnv [sampleA, sampleB] = Except.ok evs ∧
      ∀ u ∈ URI.getDistinctParents [sampleA, sampleB],
        Event.storageDelete u ∈ evs ∧
        (∃ res, deleteRes confirmEnv u = Except.ok res) ∧
        ∀ err, lookupFail confirmEnv.storageFails u = some err → Event.logError u err ∈ evs :=
  ⟨by decide, execute_confirmed_deletes_independent confirmEnv [sampleA, sampleB] (by decide)⟩

/-- C3: whenever the dirty set is non-empty the message takes the
unsaved-changes form, regardless of the selection: one dirty resource is
named by its base name, several dirty resources are counted. -/
theorem confirmMessage_dirty_priority (env : Env) (uris : List URI) :
    (∀ d, getDirty env uris = [d] →
      getConfirmMessage env uris =
        ConfirmMessage.text ("Do you really want to delete " ++ d.base ++ " with unsaved changes?")) ∧
    (∀ a b rest, getDirty env uris = a :: b :: rest →
      getConfirmMessage env uris =
        ConfirmMessage.text ("Do you really want to delete " ++ toString (a :: b :: rest).length
          ++ " files with unsaved changes?")) := by
  constructor
  · intro d h
    simp only [getConfirmMessage, h]
  · intro a b rest h
    simp only [getConfirmMessage, h]

/-- Witness for C3: a single dirty descendant resource is named in the
unsaved-changes message. -/
theorem confirmMessage_dirty_priority_witness :
    getDirty dirtyEnv [sampleDir] = [sampleChild] ∧
    getConfirmMessage dirtyEnv [sampleDir] =
      ConfirmMessage.text ("Do you really want to delete " ++ sampleChild.base
        ++ " with unsaved changes?") :=
  ⟨by decide, (confirmMessage_dirty_priority dirtyEnv [sampleDir]).1 sampleChild (by decide)⟩

/-- C4: with no dirty resources the message is chosen by the three
count-based branches: a single resource is named, more than ten resources
are counted without names, and otherwise every base name is listed. -/
theorem confirmMessage_count_branches (env : Env) (uris : List URI)
    (h : getDirty env uris = []) :
    (∀ u, uris = [u] →
      getConfirmMessage env uris =
        ConfirmMessage.text ("Do you really want to delete " ++ u.base ++ "?")) ∧
    (10 < uris.length →
      getConfirmMessage env uris =
        ConfirmMessage.text ("Do you really want to delete all the " ++ toString uris.length
          ++ " selected files?")) ∧
    (uris.length ≠ 1 → uris.length ≤ 10 →
      getConfirmMessage env uris =
        ConfirmMessage.fileList "Do you really want to delete the following files?"
          (uris.map URI.base)) := by
  refine ⟨?_, ?_, ?_⟩
  · intro u hu
    subst hu
    simp only [getConfirmMessage, h]
  · intro hlen
    cases uris with
    | nil => simp at hlen
    | cons x t =>
      cases t with
      | nil => simp at hlen
      | cons y rest =>
        simp only [getConfirmMessage, h] at *
        rw [if_pos hlen]
  · intro h1 h10
    cases uris with
    | nil =>
      simp only [getConfirmMessage, h]
      rfl
    | cons x t =>
      cases t with
      | nil => simp at h1
      | cons y rest =>
        simp only [getConfirmMessage, h] at *
        rw [if_neg (by omega)]

/-- Witness for C4: a clean singleton selection is named by its base name. -/
theorem confirmMessage_count_branches_witness :
    getDirty declineEnv [sampleA] = [] ∧
    getConfirmMessage declineEnv [sampleA] =
      ConfirmMessage.text ("Do you really want to delete " ++ sampleA.base ++ "?") :=
  ⟨by decide, (confirmMessage_count_branches declineEnv [sampleA] (by decide)).1 sampleA rfl⟩

/-- C5: the eligibility predicate holds exactly for a non-empty selection
none of whose resources is a workspace root. -/
theorem isEligible_iff_nonempty_no_root (env : Env) (uris : List URI) :
    isEnabled env uris = true ↔ uris ≠ [] ∧ ∀ u ∈ uris, u ∉ env.roots := by
  simp [isEnabled, containsRootDirectory, List.isEmpty_iff, List.elem_iff, List.any_eq_true,
    List.contains]

/-- C6: every open view bound to a deleted resource or to a descendant of it
receives its close effect inside the close section of the per-resource
trace, which precedes the storage delete of that resource; a saveable view
is closed discarding its changes, so no save logic runs even on unsaved
changes. -/
theorem delete_closes_views_before_storage (env : Env) (u : URI) (w : Widget) (r : URI)
    (hw : w ∈ env.widgets) (hr : w.resource = some r) (ha : isEqualOrAncestor u r = true) :
    (∃ tail, deleteRes env u =
        Except.ok (closeWithoutSaving env u ++ Event.storageDelete u :: tail)) ∧
    closeEvent w ∈ closeWithoutSaving env u ∧
    (w.saveable = true → closeEvent w = Event.closeDiscard w.id) := by
  have hmem : (r, w) ∈ getAffected env.widgets [u] := by
    apply List.mem_filterMap.mpr
    exact ⟨w, hw, by simp [hr, ha]⟩
  refine ⟨⟨_, by rw [deleteRes_ok]; rfl⟩, ?_, ?_⟩
  · unfold closeWithoutSaving
    exact List.mem_map_of_mem _ hmem
  · intro hs
    simp [closeEvent, hs]

/-- Witness for C6: the dirty saveable widget over a child of `sampleDir` is
discard-closed before the storage delete of `sampleDir`. -/
theorem delete_closes_views_before_storage_witness :
    sampleWidget ∈ dirtyEnv.widgets ∧ sampleWidget.resource = some sampleChild ∧
    isEqualOrAncestor sampleDir sampleChild = true ∧
    ((∃ tail, deleteRes dirtyEnv sampleDir =
        Except.ok (closeWithoutSaving dirtyEnv sampleDir ++ Event.storageDelete sampleDir :: tail)) ∧
      closeEvent sampleWidget ∈ closeWithoutSaving dirtyEnv sampleDir ∧
      (sampleWidget.saveable = true → closeEvent sampleWidget = Event.closeDiscard sampleWidget.id)) :=
  ⟨by decide, by decide, by decide,
    delete_closes_views_before_storage dirtyEnv sampleDir sampleWidget sampleChild
      (by decide) (by decide) (by decide)⟩

/-- C7 counterexample: on the empty selection `execute` does open the
confirmation dialog (with an empty file list), so the empty selection is not
rejected before all side effects. -/
theorem execute_empty_opens_dialog :
    executeE ⟨[], [], some false, []⟩ [] =
      Except.ok [Event.dialog "Delete Files"
        (ConfirmMessage.fileList "Do you really want to delete the following files?" [])] := rfl

/-- C7 amended: on the empty selection `execute` still opens the confirmation
dialog, but for every environment its whole trace is exactly that dialog
event — no view is closed, no storage delete is issued, no error occurs —
and the eligibility predicate rejects the empty selection. -/
theorem execute_empty_no_side_deletion (env : Env) :
    executeE env [] =
      Except.ok [Event.dialog "Delete Files"
        (ConfirmMessage.fileList "Do you really want to delete the following files?" [])] ∧
    isEnabled env [] = false := by
  have hdirty : getDirty env ([] : List URI) = [] := by
    unfold getDirty
    rw [getAffected_nil]
    rfl
  have hmsg : getConfirmMessage env ([] : List URI) =
      ConfirmMessage.fileList "Do you really want to delete the following files?" [] := by
    simp only [getConfirmMessage, hdirty]
    rfl
  have hd : URI.getDistinctParents ([] : List URI) = [] := rfl
  constructor
  · by_cases hc : env.dialogResponse = some true
    · rw [executeE_confirmed env [] hc, hd, hmsg]
      rfl
    · rw [executeE_declined env [] hc, hd, hmsg]
      rfl
  · rfl

/-- C8: the visibility and enabledness predicates are the same function. -/
theorem isVisible_eq_isEnabled (env : Env) (uris : List URI) :
    isVisible env uris = isEnabled env uris := rfl

/-- C9: the distinct-parents reduction is idempotent. -/
theorem getDistinctParents_idempotent (l : List URI) :
    URI.getDistinctParents (URI.getDistinctParents l) = URI.getDistinctParents l := by
  apply List.filter_eq_self.mpr
  intro u hu
  have hul := List.mem_filter.mp hu
  simp only [Bool.not_eq_true', List.any_eq_false] at hul ⊢
  intro v hv
  exact hul.2 v (List.mem_of_mem_filter hv)

end DeleteWorkflow
